import Mathlib

/-!
Shallow embedding of `src/main.py`, a FastAPI backend with four routes:
`GET /`, `GET /api/hello`, `POST /api/chat`, `GET /test`.

Strings are modelled as `List Char`.  Python exceptions (pydantic
validation errors inside the chat handler, database errors in `/test`)
are modelled with `Except`.  The optional `database` module and the two
environment variables probed by `/test` are parameters of the model.
-/

set_option maxRecDepth 100000

set_option linter.unreachableTactic false

set_option linter.unusedTactic false

set_option linter.unnecessarySimpa false

namespace Backend

abbrev Str := List Char

/-- ASCII whitespace recognised by Python's `str.strip()`. -/
def pyIsSpace (c : Char) : Bool :=
  c = ' ' || c = '\t' || c = '\n' || c = '\r' || c = '\x0b' || c = '\x0c'

/-- Python `s.strip()`: drop leading and trailing whitespace. -/
def pyStrip (s : Str) : Str :=
  ((s.dropWhile pyIsSpace).reverse.dropWhile pyIsSpace).reverse

/-- A JSON leaf value as it can appear for a `role`/`content` key of a
history dict (`main.py` line 20: `history: List[dict] | None`). -/
inductive HVal where
  | hstr (s : Str)
  | hint (n : Int)
  | hbool (b : Bool)
  | hnull
  deriving DecidableEq, Repr

/-- One loosely-typed history dict, seen through the only two keys the
handler reads (`m.get("role", ...)`, `m.get("content", ...)`); `none`
means the key is absent. -/
structure HistEntry where
  role : Option HVal
  content : Option HVal
  deriving DecidableEq, Repr

/-- `class ChatRequest(BaseModel)`, `main.py` lines 18-20. -/
structure ChatRequest where
  message : Str
  history : Option (List HistEntry)
  deriving DecidableEq, Repr

/-- `class ChatMessage(BaseModel)`, `main.py` lines 23-25. -/
structure ChatMessage where
  role : Str
  content : Str
  deriving DecidableEq, Repr

/-- `class ChatResponse(BaseModel)`, `main.py` lines 28-30. -/
structure ChatResponse where
  reply : Str
  messages : List ChatMessage
  deriving DecidableEq, Repr

/-- The onboarding reply for an empty trimmed message (lines 52-54). -/
def onboardingReply : Str :=
  "Hi! I'm a lightweight demo assistant. Ask me anything, or say hello to get started.".data

/-- The reply for a non-empty trimmed message (lines 57-61):
`reversed_hint = user_msg[::-1][:40]` interpolated into the canned tip. -/
def replyFor (user_msg : Str) : Str :=
  "You said: '".data ++ user_msg
    ++ "'. Here's a quick thought: focus on one clear step next. (fun hint: '".data
    ++ (user_msg.reverse.take 40)
    ++ "' backwards).".data

/-- Python `l[-n:]`: the last `n` elements of a list. -/
def lastN (n : Nat) (l : List α) : List α := l.drop (l.length - n)

/-- Loop body of lines 66-70 for one entry: `none` when the entry is
discarded (role not in the literal set), `some (.error ())` when
`ChatMessage(role=..., content=...)` raises a pydantic validation error
(content present but not a string), `some (.ok m)` when the constructed
message is appended. -/
def procEntry (e : HistEntry) : Option (Except Unit ChatMessage) :=
  match e.role.getD (.hstr "user".data), e.content.getD (.hstr "".data) with
  | .hstr r, c =>
    if r = "user".data ∨ r = "assistant".data ∨ r = "system".data then
      some (match c with
        | .hstr cs => .ok ⟨r, cs⟩
        | _ => .error ())
    else none
  | _, _ => none

/-- The history-rebuilding loop of lines 63-70: processes entries in
order, skipping discarded ones and aborting at the first validation
error. -/
def processHistory : List HistEntry → Except Unit (List ChatMessage)
  | [] => .ok []
  | e :: es =>
    match procEntry e with
    | none => processHistory es
    | some (.error u) => .error u
    | some (.ok m) => (processHistory es).map (fun t => m :: t)

/-- The `POST /api/chat` handler body (lines 44-75).  `Except.error`
models a pydantic validation error escaping the handler. -/
def chat (req : ChatRequest) : Except Unit ChatResponse :=
  let user_msg := pyStrip req.message
  let assistant_reply :=
    if user_msg.isEmpty then onboardingReply else replyFor user_msg
  match processHistory (lastN 8 (req.history.getD [])) with
  | .error u => .error u
  | .ok hist =>
    .ok ⟨assistant_reply,
         hist ++ [⟨"user".data, user_msg⟩, ⟨"assistant".data, assistant_reply⟩]⟩

/-- One element of the JSON array supplied for `history`: a JSON object
(seen through its `role`/`content` keys) or a non-object leaf. -/
inductive JItem where
  | obj (e : HistEntry)
  | leaf (v : HVal)
  deriving DecidableEq, Repr

/-- The JSON value found at a top-level key of the request body
(`missing` = key absent). -/
inductive JField where
  | missing
  | jnull
  | jstr (s : Str)
  | jint (n : Int)
  | jbool (b : Bool)
  | jlist (xs : List JItem)
  deriving DecidableEq, Repr

/-- A `POST /api/chat` request body (a JSON object), seen through the
two keys of the `ChatRequest` schema. -/
structure JBody where
  message : JField
  history : JField
  deriving DecidableEq, Repr

/-- Pydantic validation of one element of `history: List[dict]`:
the element must be a dict. -/
def parseHistItem : JItem → Except Unit HistEntry
  | .obj e => .ok e
  | .leaf _ => .error ()

/-- Pydantic validation of the `history` field
(`List[dict] | None = None`). -/
def parseHistory : JField → Except Unit (Option (List HistEntry))
  | .missing => .ok none
  | .jnull => .ok none
  | .jlist xs => (xs.mapM parseHistItem).map some
  | _ => .error ()

/-- Pydantic validation of a request body against the `ChatRequest`
schema (`message: str` required, `history: List[dict] | None = None`). -/
def parseChatRequest (b : JBody) : Except Unit ChatRequest :=
  match b.message with
  | .jstr s => (parseHistory b.history).map (fun h => ⟨s, h⟩)
  | _ => .error ()

/-- Outcome of `POST /api/chat` at the HTTP level: FastAPI turns a
schema violation into a 422 validation error, a handler exception into
a 500, and a normal return into a 200 `ChatResponse`. -/
inductive HttpResult where
  | err422
  | ok200 (resp : ChatResponse)
  | err500
  deriving DecidableEq, Repr

/-- The `POST /api/chat` route: body validation, then the handler. -/
def apiChat (b : JBody) : HttpResult :=
  match parseChatRequest b with
  | .error _ => .err422
  | .ok req =>
    match chat req with
    | .ok resp => .ok200 resp
    | .error _ => .err500

/-- The handle exported by the optional `database` module:
`name` attribute (absent when `hasattr(db, 'name')` is false) and
`list_collection_names()`, which returns a list or raises with a
message. -/
structure DbHandle where
  name : Option Str
  list_collection_names : Except Str (List Str)
  deriving Repr

/-- What `from database import db` can do (`main.py` lines 90-113):
raise `ImportError`, raise another exception, bind `db = None`, or bind
a handle. -/
inductive DbOutcome where
  | importError
  | otherError (msg : Str)
  | dbIsNone
  | dbHandle (h : DbHandle)
  deriving Repr

/-- The external state `GET /test` probes: the database module and the
two environment variables. -/
structure TestEnv where
  dbOutcome : DbOutcome
  databaseUrlSet : Bool
  databaseNameSet : Bool
  deriving Repr

/-- The diagnostic object built by `GET /test` (lines 81-88).
`database_url`/`database_name` start as `None` (`Option.none`). -/
structure TestResponse where
  backend : Str
  database : Str
  database_url : Option Str
  database_name : Option Str
  connection_status : Str
  collections : List Str
  deriving DecidableEq, Repr

/-- The `GET /test` handler body (lines 78-120): every failure path is
caught and written into the response; the final two assignments
(lines 117-118) overwrite `database_url`/`database_name` with
presence indicators for the environment variables. -/
def test_database (env : TestEnv) : TestResponse :=
  let r0 : TestResponse :=
    ⟨"✅ Running".data, "❌ Not Available".data, none, none,
     "Not Connected".data, []⟩
  let r1 :=
    match env.dbOutcome with
    | .importError =>
      { r0 with database := "❌ Database module not found (run enable-database first)".data }
    | .otherError msg =>
      { r0 with database := "❌ Error: ".data ++ msg.take 50 }
    | .dbIsNone =>
      { r0 with database := "⚠️  Available but not initialized".data }
    | .dbHandle h =>
      let r := { r0 with
        database := "✅ Available".data,
        database_url := some "✅ Configured".data,
        database_name := some (h.name.getD "✅ Connected".data),
        connection_status := "Connected".data }
      match h.list_collection_names with
      | .ok cs =>
        { r with collections := cs.take 10,
                 database := "✅ Connected & Working".data }
      | .error e =>
        { r with database := "⚠️  Connected but Error: ".data ++ e.take 50 }
  { r1 with
    database_url := some (if env.databaseUrlSet then "✅ Set".data else "❌ Not Set".data),
    database_name := some (if env.databaseNameSet then "✅ Set".data else "❌ Not Set".data) }

/-- The `GET /test` route: the handler returns normally in every
branch, so FastAPI serialises its dict with status 200. -/
def apiTest (env : TestEnv) : Nat × TestResponse := (200, test_database env)

/-- Body shape of the two greeting routes. -/
structure Greeting where
  message : Str
  deriving DecidableEq, Repr

/-- `GET /` handler (lines 33-35). -/
def read_root (_u : Unit) : Greeting := ⟨"Hello from FastAPI Backend!".data⟩

/-- `GET /api/hello` handler (lines 38-40). -/
def hello (_u : Unit) : Greeting := ⟨"Hello from the backend API!".data⟩

/-- The per-entry history transformation as the spec words it: default a
missing role to "user", default missing content to empty text, and
discard entries whose role is not one of the three enumerated values.
Stated independently of `procEntry` so that the history-filtering claim
is a genuine refinement statement. -/
def specEntry (e : HistEntry) : Option ChatMessage :=
  match e.role.getD (.hstr "user".data), e.content.getD (.hstr "".data) with
  | .hstr r, .hstr c =>
    if r = "user".data ∨ r = "assistant".data ∨ r = "system".data
    then some ⟨r, c⟩ else none
  | _, _ => none

/-- A 41-character message: the first 40 characters reversed differ from
the first 40 characters of the reversal. -/
def msgC1 : Str := 'a' :: List.replicate 40 'b'

/-- The response `chat` computes for `msgC1` with no history. -/
def respC1 : ChatResponse :=
  ⟨replyFor msgC1, [⟨"user".data, msgC1⟩, ⟨"assistant".data, replyFor msgC1⟩]⟩

/-- A 10-entry history mixing valid, defaulted and invalid-role
entries. -/
def reqC2 : ChatRequest :=
  ⟨"hello".data, some [
    ⟨some (.hstr "user".data), some (.hstr "m1".data)⟩,
    ⟨some (.hstr "bogus".data), some (.hstr "m2".data)⟩,
    ⟨some (.hstr "user".data), some (.hstr "m3".data)⟩,
    ⟨some (.hint 7), some (.hstr "m4".data)⟩,
    ⟨none, some (.hstr "m5".data)⟩,
    ⟨some (.hstr "assistant".data), none⟩,
    ⟨some (.hstr "robot".data), some (.hstr "m7".data)⟩,
    ⟨some (.hstr "system".data), some (.hstr "m8".data)⟩,
    ⟨some .hnull, some (.hstr "m9".data)⟩,
    ⟨some (.hstr "user".data), some (.hstr "m10".data)⟩]⟩

/-- The response `chat` computes for `reqC2`. -/
def respC2 : ChatResponse :=
  ⟨replyFor "hello".data,
   [⟨"user".data, "m3".data⟩, ⟨"user".data, "m5".data⟩,
    ⟨"assistant".data, "".data⟩, ⟨"system".data, "m8".data⟩,
    ⟨"user".data, "m10".data⟩, ⟨"user".data, "hello".data⟩,
    ⟨"assistant".data, replyFor "hello".data⟩]⟩

/-- The response `chat` computes for message `" hi "` with no history. -/
def respC6 : ChatResponse :=
  ⟨replyFor "hi".data,
   [⟨"user".data, "hi".data⟩, ⟨"assistant".data, replyFor "hi".data⟩]⟩

/-- A history entry with a valid role and a non-string content:
`ChatMessage(role="user", content=5)` raises in pydantic. -/
def badEntry : HistEntry := ⟨some (.hstr "user".data), some (.hint 5)⟩

/-- A schema-valid request body whose only history entry is `badEntry`. -/
def bodyC4 : JBody := ⟨.jstr "hi".data, .jlist [.obj badEntry]⟩

/-- `/test` environment: a handle whose collection listing returns 12
names. -/
def dbEnvOkC7 : TestEnv :=
  ⟨.dbHandle ⟨some "mydb".data,
    .ok (["c1", "c2", "c3", "c4", "c5", "c6", "c7", "c8", "c9", "c10",
          "c11", "c12"].map String.data)⟩, true, false⟩

/-- `/test` environment: a handle whose collection listing raises with a
60-character message. -/
def dbEnvErrC7 : TestEnv :=
  ⟨.dbHandle ⟨none, .error (List.replicate 60 'x')⟩, false, false⟩

theorem specEntry_eq (e : HistEntry) :
    (procEntry e = none → specEntry e = none) ∧
    (∀ m, procEntry e = some (.ok m) → specEntry e = some m) := by
  unfold procEntry specEntry
  rcases e.role.getD (.hstr "user".data) with r | n | b | _ <;>
    rcases e.content.getD (.hstr "".data) with c | n' | b' | _ <;>
      simp <;> split <;> simp

theorem specEntry_role (e : HistEntry) (m : ChatMessage)
    (h : specEntry e = some m) :
    m.role = "user".data ∨ m.role = "assistant".data ∨ m.role = "system".data := by
  unfold specEntry at h
  rcases hr : e.role.getD (.hstr "user".data) with r | n | b | _ <;>
  rcases hc : e.content.getD (.hstr "".data) with c | n' | b' | _ <;>
  rw [hr, hc] at h <;> simp at h
  obtain ⟨hv, hm⟩ := h
  subst hm
  exact hv

theorem processHistory_ok {l : List HistEntry} {h : List ChatMessage}
    (hp : processHistory l = .ok h) : h = l.filterMap specEntry := by
  induction l generalizing h with
  | nil =>
    simp [processHistory] at hp
    simp [hp]
  | cons e es ih =>
    rw [processHistory] at hp
    cases hpe : procEntry e with
    | none =>
      rw [hpe] at hp
      rw [List.filterMap_cons, (specEntry_eq e).1 hpe]
      exact ih hp
    | some x =>
      cases x with
      | error u => rw [hpe] at hp; simp at hp
      | ok m =>
        rw [hpe] at hp
        cases hr : processHistory es with
        | error u => rw [hr] at hp; simp [Except.map] at hp
        | ok t =>
          rw [hr] at hp
          simp [Except.map] at hp
          rw [List.filterMap_cons, (specEntry_eq e).2 m hpe, ← hp, ih hr]

theorem chat_ok {req : ChatRequest} {resp : ChatResponse}
    (h : chat req = .ok resp) :
    ∃ hist, processHistory (lastN 8 (req.history.getD [])) = .ok hist ∧
      resp.reply = (if (pyStrip req.message).isEmpty then onboardingReply
                    else replyFor (pyStrip req.message)) ∧
      resp.messages = hist ++ [⟨"user".data, pyStrip req.message⟩,
                               ⟨"assistant".data, resp.reply⟩] := by
  simp only [chat] at h
  cases hp : processHistory (lastN 8 (req.history.getD [])) with
  | error u => rw [hp] at h; simp at h
  | ok hist =>
    rw [hp] at h
    injection h with h
    subst h
    exact ⟨hist, rfl, rfl, rfl⟩

/-- Claim C5 (confirmed): whenever the trimmed message is empty and the
chat handler returns a response, the reply is the fixed onboarding
string. -/
theorem chat_empty_message_onboarding (req : ChatRequest) (resp : ChatResponse)
    (hok : chat req = .ok resp) (hempty : pyStrip req.message = []) :
    resp.reply = onboardingReply := by
  obtain ⟨hist, _, hr, _⟩ := chat_ok hok
  rw [hempty] at hr
  simpa using hr

/-- Witness for C5: message `"   "` with no history yields the
onboarding reply. -/
theorem chat_empty_message_onboarding_witness :
    (⟨onboardingReply, [⟨"user".data, []⟩, ⟨"assistant".data, onboardingReply⟩]⟩
      : ChatResponse).reply = onboardingReply :=
  chat_empty_message_onboarding ⟨"   ".data, none⟩
    ⟨onboardingReply, [⟨"user".data, []⟩, ⟨"assistant".data, onboardingReply⟩]⟩
    (by rfl) (by decide)

/-- Claim C1 counterexample: for the 41-character message `msgC1`
(`"a"` followed by forty `"b"`), the reply does not contain the first 40
characters of the message reversed, even though it contains the message
verbatim; the code interpolates `user_msg[::-1][:40]`, the first 40
characters of the reversed message. -/
theorem chat_reverse_hint_counterexample :
    pyStrip msgC1 = msgC1 ∧
    chat ⟨msgC1, none⟩ = .ok respC1 ∧
    msgC1 <:+: respC1.reply ∧
    ¬ ((msgC1.take 40).reverse <:+: respC1.reply) := by
  refine ⟨by decide, by rfl, by decide, by decide⟩

/-- Claim C1 (amended): for every returned response whose trimmed
message M is non-empty, the reply contains M verbatim and contains the
first 40 characters of the reversed message (equivalently, the last 40
characters of M in reverse order). -/
theorem chat_reply_contains (req : ChatRequest) (resp : ChatResponse)
    (hok : chat req = .ok resp) (hne : pyStrip req.message ≠ []) :
    pyStrip req.message <:+: resp.reply ∧
    (pyStrip req.message).reverse.take 40 <:+: resp.reply := by
  obtain ⟨hist, _, hr, _⟩ := chat_ok hok
  rw [if_neg (by simpa using hne)] at hr
  refine ⟨⟨"You said: '".data,
      "'. Here's a quick thought: focus on one clear step next. (fun hint: '".data
        ++ (pyStrip req.message).reverse.take 40 ++ "' backwards).".data, ?_⟩,
    ⟨"You said: '".data ++ pyStrip req.message
        ++ "'. Here's a quick thought: focus on one clear step next. (fun hint: '".data,
      "' backwards).".data, ?_⟩⟩ <;>
  rw [hr] <;> simp [replyFor]

/-- Witness for C1 (amended): instantiated at message `"hello"`. -/
theorem chat_reply_contains_witness :
    "hello".data <:+: (replyFor "hello".data) ∧
    ("hello".data : Str).reverse.take 40 <:+: (replyFor "hello".data) := by
  have h := chat_reply_contains ⟨"hello".data, none⟩
    ⟨replyFor "hello".data,
     [⟨"user".data, "hello".data⟩, ⟨"assistant".data, replyFor "hello".data⟩]⟩
    (by rfl) (by decide)
  simpa using h

/-- Claim C2 (confirmed): when the chat handler returns a response, the
messages list minus its two final appended entries is exactly the
spec-side filter (last 8 entries, defaults applied, invalid roles
discarded, order preserved), has length at most 8, and every surviving
role is one of the three enumerated values. -/
theorem chat_history_filtering (req : ChatRequest) (resp : ChatResponse)
    (hok : chat req = .ok resp) :
    resp.messages.take (resp.messages.length - 2)
      = (lastN 8 (req.history.getD [])).filterMap specEntry ∧
    (resp.messages.take (resp.messages.length - 2)).length ≤ 8 ∧
    ∀ m ∈ resp.messages.take (resp.messages.length - 2),
      m.role = "user".data ∨ m.role = "assistant".data ∨ m.role = "system".data := by
  obtain ⟨hist, hp, _, hm⟩ := chat_ok hok
  have htake : resp.messages.take (resp.messages.length - 2) = hist := by
    rw [hm]
    simp [List.length_append]
  have hfil := processHistory_ok hp
  refine ⟨htake.trans hfil, ?_, ?_⟩
  · rw [htake, hfil]
    calc ((lastN 8 (req.history.getD [])).filterMap specEntry).length
        ≤ (lastN 8 (req.history.getD [])).length := List.length_filterMap_le _ _
      _ ≤ 8 := by simp only [lastN, List.length_drop]; omega
  · intro m hmem
    rw [htake, hfil] at hmem
    obtain ⟨e, _, he⟩ := List.mem_filterMap.mp hmem
    exact specEntry_role e m he

/-- Witness for C2: a 10-entry history with mixed valid, defaulted and
invalid-role entries. -/
theorem chat_history_filtering_witness :
    chat reqC2 = .ok respC2 ∧
    respC2.messages.take (respC2.messages.length - 2)
      = (lastN 8 (reqC2.history.getD [])).filterMap specEntry ∧
    (respC2.messages.take (respC2.messages.length - 2)).length ≤ 8 ∧
    ∀ m ∈ respC2.messages.take (respC2.messages.length - 2),
      m.role = "user".data ∨ m.role = "assistant".data ∨ m.role = "system".data := by
  have hok : chat reqC2 = .ok respC2 := by rfl
  have h := chat_history_filtering reqC2 respC2 hok
  exact ⟨hok, h.1, h.2.1, h.2.2⟩

/-- Claim C6 counterexample: for the message `" hi "`, the user entry
appended to the messages list carries the trimmed text `"hi"`, which
differs from the new user message `" hi "`. -/
theorem chat_appended_user_counterexample :
    chat ⟨" hi ".data, none⟩ = .ok respC6 ∧
    respC6.messages
      = [⟨"user".data, "hi".data⟩, ⟨"assistant".data, respC6.reply⟩] ∧
    "hi".data ≠ " hi ".data := by
  refine ⟨by rfl, by rfl, by decide⟩

/-- Claim C6 (amended): every returned messages list ends with a user
entry carrying the whitespace-trimmed message followed by an assistant
entry whose content equals the returned reply; for a non-empty trimmed
message the reply starts with `You said: 'M'.`. -/
theorem chat_appended_entries (req : ChatRequest) (resp : ChatResponse)
    (hok : chat req = .ok resp) :
    (∃ hist, resp.messages
      = hist ++ [⟨"user".data, pyStrip req.message⟩,
                 ⟨"assistant".data, resp.reply⟩]) ∧
    (pyStrip req.message ≠ [] →
      ("You said: '".data ++ pyStrip req.message ++ "'.".data) <+: resp.reply) := by
  obtain ⟨hist, _, hr, hm⟩ := chat_ok hok
  refine ⟨⟨hist, hm⟩, fun hne => ?_⟩
  rw [hr, if_neg (by simpa using hne)]
  refine ⟨" Here's a quick thought: focus on one clear step next. (fun hint: '".data
      ++ (pyStrip req.message).reverse.take 40 ++ "' backwards).".data, ?_⟩
  have hsplit : ("'.".data : Str)
      ++ " Here's a quick thought: focus on one clear step next. (fun hint: '".data
      = "'. Here's a quick thought: focus on one clear step next. (fun hint: '".data := by
    decide
  rw [replyFor, ← hsplit]
  simp [List.append_assoc]

/-- Witness for C6 (amended): the spec's own example, message `"hi"`
with no history. -/
theorem chat_appended_entries_witness :
    (∃ hist, ([⟨"user".data, "hi".data⟩,
               ⟨"assistant".data, replyFor "hi".data⟩] : List ChatMessage)
      = hist ++ [⟨"user".data, "hi".data⟩,
                 ⟨"assistant".data, replyFor "hi".data⟩]) ∧
    ("You said: '".data ++ "hi".data ++ "'.".data) <+: replyFor "hi".data := by
  have h := chat_appended_entries ⟨"hi".data, none⟩
    ⟨replyFor "hi".data,
     [⟨"user".data, "hi".data⟩, ⟨"assistant".data, replyFor "hi".data⟩]⟩
    (by rfl)
  have h2 := h.2 (by decide)
  exact ⟨h.1, by simpa using h2⟩

/-- Claim C3 (confirmed): for every environment (database module
missing, import failing otherwise, handle null, handle present with
collection listing succeeding or failing, environment variables set or
unset), `GET /test` returns status 200 with a diagnostic object; the
handler is total, so no exception escapes. -/
theorem test_always_200 (env : TestEnv) :
    (apiTest env).1 = 200 ∧
    (apiTest env).2.backend = "✅ Running".data ∧
    ((apiTest env).2.connection_status = "Connected".data ∨
     (apiTest env).2.connection_status = "Not Connected".data) := by
  obtain ⟨dbo, us, ns⟩ := env
  refine ⟨rfl, ?_, ?_⟩ <;>
  cases dbo with
  | importError => first | exact rfl | exact Or.inr rfl
  | otherError msg => first | exact rfl | exact Or.inr rfl
  | dbIsNone => first | exact rfl | exact Or.inr rfl
  | dbHandle h =>
    cases hl : h.list_collection_names <;>
      simp [apiTest, test_database, hl]

/-- Claim C4 counterexample: `bodyC4` is schema-valid (`message` a
string, `history` a list of dicts), yet the route returns an internal
error, not a `ChatResponse`: constructing
`ChatMessage(role="user", content=5)` raises inside the handler. -/
theorem apiChat_wellformed_counterexample :
    parseChatRequest bodyC4 = .ok ⟨"hi".data, some [badEntry]⟩ ∧
    apiChat bodyC4 = .err500 := by
  exact ⟨rfl, rfl⟩

/-- Claim C4 (amended): the route returns a 422 validation error exactly
when the body fails `ChatRequest` schema validation; for a schema-valid
body it returns the handler's `ChatResponse` unless the handler itself
raises (a retained history entry with a valid role and non-string
content), in which case the failure is an internal error, not a 422. -/
theorem apiChat_status (b : JBody) :
    (apiChat b = .err422 ↔ (parseChatRequest b).isOk = false) ∧
    (∀ req, parseChatRequest b = .ok req →
      (∃ resp, chat req = .ok resp ∧ apiChat b = .ok200 resp) ∨
      (∃ u, chat req = .error u ∧ apiChat b = .err500)) := by
  cases hp : parseChatRequest b with
  | error e =>
    refine ⟨?_, ?_⟩
    · simp [apiChat, hp, Except.isOk, Except.toBool]
    · intro req hreq
      exact absurd hreq (by simp)
  | ok req0 =>
    refine ⟨?_, ?_⟩
    · cases hc : chat req0 <;>
        simp [apiChat, hp, hc, Except.isOk, Except.toBool]
    · intro req hreq
      injection hreq with hreq
      subst hreq
      cases hc : chat req0 with
      | error u => exact Or.inr ⟨u, rfl, by simp [apiChat, hp, hc]⟩
      | ok resp => exact Or.inl ⟨resp, rfl, by simp [apiChat, hp, hc]⟩

/-- Witness for C4 (amended): a body missing `message` is rejected with
422; the body `{"message": "hi"}` produces a 200 `ChatResponse`. -/
theorem apiChat_status_witness :
    apiChat ⟨.missing, .missing⟩ = .err422 ∧
    ((∃ resp, chat ⟨"hi".data, none⟩ = .ok resp ∧
        apiChat ⟨.jstr "hi".data, .missing⟩ = .ok200 resp) ∨
     (∃ u, chat ⟨"hi".data, none⟩ = .error u ∧
        apiChat ⟨.jstr "hi".data, .missing⟩ = .err500)) :=
  ⟨(apiChat_status ⟨.missing, .missing⟩).1.mpr (by rfl),
   (apiChat_status ⟨.jstr "hi".data, .missing⟩).2 ⟨"hi".data, none⟩ (by rfl)⟩

/-- Claim C7 (confirmed): with a database handle, a successful listing
puts the first 10 collection names (hence at most 10) in `collections`,
and a failed listing reports the error truncated to at most 50
characters in the `database` field. -/
theorem test_collections_truncation (env : TestEnv) (h : DbHandle)
    (hdb : env.dbOutcome = .dbHandle h) :
    (∀ cs, h.list_collection_names = .ok cs →
      (test_database env).collections = cs.take 10 ∧
      (test_database env).collections.length ≤ 10) ∧
    (∀ msg, h.list_collection_names = .error msg →
      (test_database env).database
        = "⚠️  Connected but Error: ".data ++ msg.take 50 ∧
      (msg.take 50).length ≤ 50) := by
  obtain ⟨dbo, us, ns⟩ := env
  simp only at hdb
  subst hdb
  constructor
  · intro cs hcs
    refine ⟨by simp [test_database, hcs], ?_⟩
    simp only [test_database, hcs]
    simp [List.length_take]
  · intro msg hmsg
    refine ⟨by simp [test_database, hmsg], ?_⟩
    simp [List.length_take]

/-- Witness for C7: a 12-collection listing is cut to 10; a
60-character error message is cut to 50. -/
theorem test_collections_truncation_witness :
    ((test_database dbEnvOkC7).collections
        = (["c1", "c2", "c3", "c4", "c5", "c6", "c7", "c8", "c9", "c10",
            "c11", "c12"].map String.data).take 10 ∧
      (test_database dbEnvOkC7).collections.length ≤ 10) ∧
    ((test_database dbEnvErrC7).database
        = "⚠️  Connected but Error: ".data ++ (List.replicate 60 'x').take 50 ∧
      ((List.replicate 60 'x' : Str).take 50).length ≤ 50) :=
  ⟨(test_collections_truncation dbEnvOkC7 _ rfl).1 _ rfl,
   (test_collections_truncation dbEnvErrC7 _ rfl).2 _ rfl⟩

/-- Claim C8 (confirmed): `GET /` and `GET /api/hello` are constant,
returning the same fixed greeting on every call. -/
theorem greetings_fixed (u v : Unit) :
    read_root u = read_root v ∧ hello u = hello v ∧
    (read_root u).message = "Hello from FastAPI Backend!".data ∧
    (hello u).message = "Hello from the backend API!".data :=
  ⟨rfl, rfl, rfl, rfl⟩

/-- Claim C9 (confirmed): in every `GET /test` response the
`database_url` and `database_name` fields equal the environment-variable
presence indicators, for every database outcome: the final environment
checks overwrite whatever the database branch assigned (in particular
the `"✅ Configured"` value never survives). -/
theorem test_env_overrides (env : TestEnv) :
    (test_database env).database_url
      = some (if env.databaseUrlSet then "✅ Set".data else "❌ Not Set".data) ∧
    (test_database env).database_name
      = some (if env.databaseNameSet then "✅ Set".data else "❌ Not Set".data) ∧
    (test_database env).database_url ≠ some "✅ Configured".data := by
  refine ⟨rfl, rfl, ?_⟩
  cases hu : env.databaseUrlSet <;> simp [test_database, hu]

/-- Claim C10 (confirmed): a history entry with a role in the literal
set but a non-string content is neither discarded nor defaulted:
constructing the `ChatMessage` raises a validation error, the handler
fails, and the schema-valid request is answered with an internal
error. -/
theorem chat_nontext_content_raises :
    procEntry badEntry = some (.error ()) ∧
    chat ⟨"hi".data, some [badEntry]⟩ = .error () ∧
    apiChat ⟨.jstr "hi".data, .jlist [.obj badEntry]⟩ = .err500 :=
  ⟨rfl, rfl, rfl⟩

end Backend
